import Mathlib

/-!
# hid-remapper: USB descriptor and HID callback layer

A shallow embedding of `firmware/src/tinyusb_stuff.cc`.

* Machine integers are natural numbers; a value stored in a `uint8_t` or
  `uint16_t` object is reduced modulo `2^8` resp. `2^16` at the store.
* The static buffer `_desc_str` is passed in and out explicitly.  A store
  outside the 32 words of the buffer is undefined behaviour and makes the
  embedded function return `none`.
* External collaborators (`handle_get_report0/1`, `handle_set_report0/1`,
  `reset_resolution_multiplier`, `get_unique_id`) are not part of the file.
  The values they return are parameters, and the calls made to the report
  handlers and to `reset_resolution_multiplier` are returned as a list of
  `ExternCall` events.
-/

set_option linter.unusedVariables false

namespace HidRemapper

/-! ## String descriptors -/

/-- Modelled from the spec: `TUSB_DESC_STRING` comes from the TinyUSB header
`tusb.h`, which is not part of the sources; it is the string-descriptor type
tag of the USB standard. -/
def TUSB_DESC_STRING : Nat := 0x03

/-- The table `string_desc_arr`, every entry as the list of its bytes.
Entry 0 is the two byte array `{ 0x09, 0x04 }`; the other entries are string
literals, listed without their terminating NUL. -/
def string_desc_arr : List (List Nat) :=
  [ [0x09, 0x04],
    "ZUOYA".toList.map Char.toNat,
    "ZUOYA GMK87 XXXX".toList.map Char.toNat ]

/-- The array `id_chars[33]`: the 32 symbols and the terminating NUL. -/
def id_chars : List Nat :=
  "0123456789ABCDEFGHIJKLMNOPQRSTUV".toList.map Char.toNat ++ [0]

/-- The contents of `uint16_t _desc_str[32]`: word `j` of the buffer for
`j < 32`. -/
abbrev DescStr := Nat → Nat

/-- The assignment `_desc_str[pos] = v`.  The value is converted to
`uint16_t`; a position outside the array gives `none`. -/
def store (desc_str : DescStr) (pos : Int) (v : Nat) : Option DescStr :=
  if 0 ≤ pos ∧ pos < 32 then
    some (fun j => if (j : Int) = pos then v % 2 ^ 16 else desc_str j)
  else none

/-- C `strlen` on a table entry: the number of bytes before the first NUL
(the end of the list stands for the terminating NUL of the literal). -/
def strlen (str : List Nat) : Nat :=
  (str.takeWhile (fun c => c != 0)).length

/-- The value of the local `uint8_t chr_count` for a string entry `str`:
`strlen(str)` converted to `uint8_t`, then capped at 31. -/
def chr_count (str : List Nat) : Nat :=
  let c := strlen str % 2 ^ 8
  if c > 31 then 31 else c

/-- The loop `for (i = 0; i < chr_count; i++) _desc_str[1 + i] = str[i]`.
The bytes of `str` are values in `[0, 256)` (`char` is unsigned on the ARM
target), so the conversion to `uint16_t` keeps them. -/
def widen_loop (str : List Nat) (count : Nat) (desc_str : DescStr) : Option DescStr :=
  (List.range count).foldlM (fun d (i : Nat) => store d (1 + (i : Int)) (str.getD i 0)) desc_str

/-- The loop `for (i = 0; i < 4; i++)
_desc_str[1 + chr_count - 4 + i] = id_chars[(unique_id >> (i * 5)) & 0x1F]`.
The subscript is computed in `int` and can be negative. -/
def unique_id_loop (unique_id : Nat) (count : Nat) (desc_str : DescStr) : Option DescStr :=
  (List.range 4).foldlM
    (fun d (i : Nat) => store d (1 + (count : Int) - 4 + (i : Int))
      (id_chars.getD ((unique_id >>> (i * 5)) &&& 0x1F) 0))
    desc_str

/-- The result of `tud_descriptor_string_cb`: whether the returned pointer is
`_desc_str` (`true`) or `nullptr` (`false`), and the buffer afterwards. -/
structure StringCbResult where
  ret : Bool
  desc_str : DescStr

/-- The function `tud_descriptor_string_cb(index, langid)`, with the string
table, the value returned by `get_unique_id()` and the buffer `_desc_str` made
explicit.  `none` stands for a store outside `_desc_str`. -/
def tud_descriptor_string_cb (tbl : List (List Nat)) (unique_id : Nat)
    (index langid : Nat) (desc_str : DescStr) : Option StringCbResult :=
  let header (count : Nat) (d : DescStr) : Option StringCbResult :=
    (store d 0 ((TUSB_DESC_STRING <<< 8) ||| (2 * count + 2))).map
      (fun d1 => StringCbResult.mk true d1)
  if index = 0 then
    -- memcpy(&_desc_str[1], string_desc_arr[0], 2) on a little-endian target
    let src := tbl.getD 0 []
    (store desc_str 1 (src.getD 0 0 + 2 ^ 8 * src.getD 1 0)).bind (header 1)
  else if index = 0xEE then
    some (StringCbResult.mk false desc_str)
  else if index ≥ tbl.length then
    some (StringCbResult.mk false desc_str)
  else
    let str := tbl.getD index []
    let count := chr_count str
    (widen_loop str count desc_str).bind fun d1 =>
      if index = 2 then
        (unique_id_loop unique_id count d1).bind (header count)
      else
        header count d1

/-- The value of `chr_count` when the header word is written: 1 for index 0,
otherwise `chr_count` of the selected entry. -/
def written_count (tbl : List (List Nat)) (index : Nat) : Nat :=
  if index = 0 then 1 else chr_count (tbl.getD index [])

/-! ## Report dispatch -/

/-- A call to an external collaborator declared in `remapper.h`, with the
arguments passed.  A buffer argument stands for the bytes found from the
pointer passed onwards. -/
inductive ExternCall
  | handle_get_report0 (report_id : Nat) (buffer : List Nat) (reqlen : Nat)
  | handle_get_report1 (report_id : Nat) (buffer : List Nat) (reqlen : Nat)
  | handle_set_report0 (report_id : Nat) (buffer : List Nat) (bufsize : Nat)
  | handle_set_report1 (report_id : Nat) (buffer : List Nat) (bufsize : Nat)
  | reset_resolution_multiplier
  deriving DecidableEq, Repr

/-- The function `tud_hid_get_report_cb`.  The two parameters `get_report0`
and `get_report1` give the values returned by `handle_get_report0` and
`handle_get_report1`; the result is the list of external calls made and the
value returned. -/
def tud_hid_get_report_cb (get_report0 get_report1 : Nat → List Nat → Nat → Nat)
    (itf report_id report_type : Nat) (buffer : List Nat) (reqlen : Nat) :
    List ExternCall × Nat :=
  if itf = 0 then
    ([ExternCall.handle_get_report0 report_id buffer reqlen], get_report0 report_id buffer reqlen)
  else
    ([ExternCall.handle_get_report1 report_id buffer reqlen], get_report1 report_id buffer reqlen)

/-- The function `tud_hid_set_report_cb`; the result is the list of external
calls made.  `buffer[0]` is the head of the byte list and `buffer++` drops
it; `bufsize` is passed on as received. -/
def tud_hid_set_report_cb (itf report_id report_type : Nat) (buffer : List Nat)
    (bufsize : Nat) : List ExternCall :=
  if itf = 0 then
    let adjusted : Nat × List Nat :=
      if report_id = 0 ∧ report_type = 0 ∧ bufsize > 0 then
        (buffer.headD 0, buffer.tail)
      else
        (report_id, buffer)
    [ExternCall.handle_set_report0 adjusted.1 adjusted.2 bufsize]
  else
    [ExternCall.handle_set_report1 report_id buffer bufsize]

/-! ## Protocol and mount state -/

/-- Modelled from the spec: `HID_PROTOCOL_BOOT` comes from the TinyUSB header
`tusb.h`, which is not part of the sources; it is the protocol value that
selects the boot protocol. -/
def HID_PROTOCOL_BOOT : Nat := 0

/-- The two flags `boot_protocol_keyboard` and `boot_protocol_updated` of
`globals.h`. -/
structure ProtocolState where
  boot_protocol_keyboard : Bool
  boot_protocol_updated : Bool
  deriving DecidableEq, Repr

/-- The function `tud_hid_set_protocol_cb` as a transition of the two flags.
The `printf` only writes a log line. -/
def tud_hid_set_protocol_cb (instance_ protocol : Nat) (s : ProtocolState) : ProtocolState :=
  let s1 := ProtocolState.mk (decide (protocol = HID_PROTOCOL_BOOT)) s.boot_protocol_updated
  ProtocolState.mk s1.boot_protocol_keyboard true

/-- The function `tud_mount_cb`: the external calls made and the flags
afterwards.  `reset_resolution_multiplier` belongs to the remapper and is
taken not to write the two protocol flags. -/
def tud_mount_cb (s : ProtocolState) : List ExternCall × ProtocolState :=
  ([ExternCall.reset_resolution_multiplier],
    if s.boot_protocol_keyboard then
      ProtocolState.mk false true
    else
      s)


/-! ## Reference encoding of the unique-id suffix -/

/-- The alphabet named by the specification, `0-9A-V`, as code units. -/
def spec_alphabet : List Nat :=
  "0123456789ABCDEFGHIJKLMNOPQRSTUV".toList.map Char.toNat

/-- The base-32 encoding of `n` in `k` symbols over `spec_alphabet`, the
least-significant 5-bit group first, as the specification words it. -/
def spec_base32_lsf : Nat → Nat → List Nat
  | 0, _ => []
  | k + 1, n => spec_alphabet.getD (n % 32) 0 :: spec_base32_lsf k (n / 32)

/-! ## Configuration descriptors

The descriptor macros and the constants they use come from the TinyUSB headers
(`tusb.h`, `usbd.h`), which are not part of the sources.  The values that come
from `our_descriptor.h`, `config.h` and `tusb_config.h` are parameters. -/

/-- Modelled from the spec: `TUSB_DESC_CONFIGURATION` of the missing TinyUSB
headers, the descriptor type of a configuration header. -/
def TUSB_DESC_CONFIGURATION : Nat := 0x02

/-- Modelled from the spec: `TUSB_DESC_INTERFACE` of the missing TinyUSB
headers, the descriptor type of an interface block. -/
def TUSB_DESC_INTERFACE : Nat := 0x04

/-- Modelled from the spec: `TUSB_DESC_ENDPOINT` of the missing TinyUSB
headers, the descriptor type of an endpoint block. -/
def TUSB_DESC_ENDPOINT : Nat := 0x05

/-- Modelled from the spec: `TUSB_CLASS_HID` of the missing TinyUSB headers,
the interface class of a HID interface. -/
def TUSB_CLASS_HID : Nat := 3

/-- Modelled from the spec: `HID_SUBCLASS_BOOT` of the missing TinyUSB
headers. -/
def HID_SUBCLASS_BOOT : Nat := 1

/-- Modelled from the spec: `HID_ITF_PROTOCOL_NONE` of the missing TinyUSB
headers, the interface protocol "None". -/
def HID_ITF_PROTOCOL_NONE : Nat := 0

/-- Modelled from the spec: `HID_ITF_PROTOCOL_KEYBOARD` of the missing TinyUSB
headers, the interface protocol "Keyboard". -/
def HID_ITF_PROTOCOL_KEYBOARD : Nat := 1

/-- Modelled from the spec: `HID_DESC_TYPE_HID` of the missing TinyUSB
headers. -/
def HID_DESC_TYPE_HID : Nat := 0x21

/-- Modelled from the spec: `HID_DESC_TYPE_REPORT` of the missing TinyUSB
headers. -/
def HID_DESC_TYPE_REPORT : Nat := 0x22

/-- Modelled from the spec: `TUSB_XFER_INTERRUPT` of the missing TinyUSB
headers, the transfer type of an interrupt endpoint. -/
def TUSB_XFER_INTERRUPT : Nat := 3

/-- Modelled from the spec: the macro `U16_TO_U8S_LE` of the missing TinyUSB
headers, the two bytes of a 16-bit value, low byte first. -/
def U16_TO_U8S_LE (u16 : Nat) : List Nat :=
  [u16 &&& 0xff, (u16 >>> 8) &&& 0xff]

/-- Modelled from the spec: `TUD_CONFIG_DESC_LEN` of the missing TinyUSB
headers, the length of a configuration header. -/
def TUD_CONFIG_DESC_LEN : Nat := 9

/-- Modelled from the spec: `TUD_HID_DESC_LEN` of the missing TinyUSB headers:
interface block, HID block and one endpoint block. -/
def TUD_HID_DESC_LEN : Nat := 9 + 9 + 7

/-- Modelled from the spec: `TUD_HID_INOUT_DESC_LEN` of the missing TinyUSB
headers: interface block, HID block and two endpoint blocks. -/
def TUD_HID_INOUT_DESC_LEN : Nat := 9 + 9 + 7 + 7

/-- Modelled from the spec: the macro `TUD_CONFIG_DESCRIPTOR` of the missing
TinyUSB headers, the configuration header with the total length in bytes 2 and
3, low byte first. -/
def TUD_CONFIG_DESCRIPTOR (config_num itfcount stridx total_len attr power_ma : Nat) :
    List Nat :=
  [9, TUSB_DESC_CONFIGURATION] ++ U16_TO_U8S_LE total_len ++
    [itfcount, config_num, stridx, (1 <<< 7) ||| attr, power_ma / 2]

/-- Modelled from the spec: the macro `TUD_HID_DESCRIPTOR` of the missing
TinyUSB headers: a HID interface with one IN endpoint. -/
def TUD_HID_DESCRIPTOR (itfnum stridx boot_protocol report_desc_len epin epsize ep_interval : Nat) :
    List Nat :=
  [9, TUSB_DESC_INTERFACE, itfnum, 0, 1, TUSB_CLASS_HID,
    (if boot_protocol ≠ 0 then HID_SUBCLASS_BOOT else 0), boot_protocol, stridx] ++
  ([9, HID_DESC_TYPE_HID] ++ U16_TO_U8S_LE 0x0111 ++ [0, 1, HID_DESC_TYPE_REPORT] ++
    U16_TO_U8S_LE report_desc_len) ++
  ([7, TUSB_DESC_ENDPOINT, epin, TUSB_XFER_INTERRUPT] ++ U16_TO_U8S_LE epsize ++ [ep_interval])

/-- Modelled from the spec: the macro `TUD_HID_INOUT_DESCRIPTOR` of the missing
TinyUSB headers: a HID interface with an OUT and an IN endpoint. -/
def TUD_HID_INOUT_DESCRIPTOR
    (itfnum stridx boot_protocol report_desc_len epout epin epsize ep_interval : Nat) :
    List Nat :=
  [9, TUSB_DESC_INTERFACE, itfnum, 0, 2, TUSB_CLASS_HID,
    (if boot_protocol ≠ 0 then HID_SUBCLASS_BOOT else 0), boot_protocol, stridx] ++
  ([9, HID_DESC_TYPE_HID] ++ U16_TO_U8S_LE 0x0111 ++ [0, 1, HID_DESC_TYPE_REPORT] ++
    U16_TO_U8S_LE report_desc_len) ++
  ([7, TUSB_DESC_ENDPOINT, epout, TUSB_XFER_INTERRUPT] ++ U16_TO_U8S_LE epsize ++ [ep_interval]) ++
  ([7, TUSB_DESC_ENDPOINT, epin, TUSB_XFER_INTERRUPT] ++ U16_TO_U8S_LE epsize ++ [ep_interval])

/-- The values the configuration descriptors take from other files:
`our_descriptors[i].descriptor_length`, `config_report_descriptor_length` and
`CFG_TUD_HID_EP_BUFSIZE`. -/
structure DescriptorParams where
  descriptor_length : Nat → Nat
  config_report_descriptor_length : Nat
  CFG_TUD_HID_EP_BUFSIZE : Nat

/-- The array `configuration_descriptor0`. -/
def configuration_descriptor0 (p : DescriptorParams) : List Nat :=
  TUD_CONFIG_DESCRIPTOR 1 2 0 (TUD_CONFIG_DESC_LEN + TUD_HID_DESC_LEN + TUD_HID_DESC_LEN) 0 100 ++
  TUD_HID_DESCRIPTOR 0 0 HID_ITF_PROTOCOL_KEYBOARD (p.descriptor_length 0) 0x81
    p.CFG_TUD_HID_EP_BUFSIZE 1 ++
  TUD_HID_DESCRIPTOR 1 0 HID_ITF_PROTOCOL_NONE p.config_report_descriptor_length 0x83
    p.CFG_TUD_HID_EP_BUFSIZE 1

/-- The array `configuration_descriptor1`. -/
def configuration_descriptor1 (p : DescriptorParams) : List Nat :=
  TUD_CONFIG_DESCRIPTOR 1 2 0 (TUD_CONFIG_DESC_LEN + TUD_HID_DESC_LEN + TUD_HID_DESC_LEN) 0 100 ++
  TUD_HID_DESCRIPTOR 0 0 HID_ITF_PROTOCOL_KEYBOARD (p.descriptor_length 1) 0x81
    p.CFG_TUD_HID_EP_BUFSIZE 1 ++
  TUD_HID_DESCRIPTOR 1 0 HID_ITF_PROTOCOL_NONE p.config_report_descriptor_length 0x83
    p.CFG_TUD_HID_EP_BUFSIZE 1

/-- The array `configuration_descriptor2`. -/
def configuration_descriptor2 (p : DescriptorParams) : List Nat :=
  TUD_CONFIG_DESCRIPTOR 1 2 0
    (TUD_CONFIG_DESC_LEN + TUD_HID_INOUT_DESC_LEN + TUD_HID_DESC_LEN) 0 100 ++
  TUD_HID_INOUT_DESCRIPTOR 0 0 HID_ITF_PROTOCOL_NONE (p.descriptor_length 2) 0x02 0x81
    p.CFG_TUD_HID_EP_BUFSIZE 1 ++
  TUD_HID_DESCRIPTOR 1 0 HID_ITF_PROTOCOL_NONE p.config_report_descriptor_length 0x83
    p.CFG_TUD_HID_EP_BUFSIZE 1

/-- The array `configuration_descriptor3`. -/
def configuration_descriptor3 (p : DescriptorParams) : List Nat :=
  TUD_CONFIG_DESCRIPTOR 1 2 0 (TUD_CONFIG_DESC_LEN + TUD_HID_DESC_LEN + TUD_HID_DESC_LEN) 0 100 ++
  TUD_HID_DESCRIPTOR 0 0 HID_ITF_PROTOCOL_NONE (p.descriptor_length 3) 0x81
    p.CFG_TUD_HID_EP_BUFSIZE 1 ++
  TUD_HID_DESCRIPTOR 1 0 HID_ITF_PROTOCOL_NONE p.config_report_descriptor_length 0x83
    p.CFG_TUD_HID_EP_BUFSIZE 1

/-- The array `configuration_descriptor4`. -/
def configuration_descriptor4 (p : DescriptorParams) : List Nat :=
  TUD_CONFIG_DESCRIPTOR 1 2 0
    (TUD_CONFIG_DESC_LEN + TUD_HID_INOUT_DESC_LEN + TUD_HID_DESC_LEN) 0 100 ++
  TUD_HID_INOUT_DESCRIPTOR 0 0 HID_ITF_PROTOCOL_NONE (p.descriptor_length 4) 0x02 0x81
    p.CFG_TUD_HID_EP_BUFSIZE 1 ++
  TUD_HID_DESCRIPTOR 1 0 HID_ITF_PROTOCOL_NONE p.config_report_descriptor_length 0x83
    p.CFG_TUD_HID_EP_BUFSIZE 1

/-- The array `configuration_descriptor5`. -/
def configuration_descriptor5 (p : DescriptorParams) : List Nat :=
  TUD_CONFIG_DESCRIPTOR 1 2 0 (TUD_CONFIG_DESC_LEN + TUD_HID_DESC_LEN + TUD_HID_DESC_LEN) 0 100 ++
  TUD_HID_DESCRIPTOR 0 0 HID_ITF_PROTOCOL_NONE (p.descriptor_length 5) 0x81
    p.CFG_TUD_HID_EP_BUFSIZE 1 ++
  TUD_HID_DESCRIPTOR 1 0 HID_ITF_PROTOCOL_NONE p.config_report_descriptor_length 0x83
    p.CFG_TUD_HID_EP_BUFSIZE 1

/-- The array `configuration_descriptors`. -/
def configuration_descriptors (p : DescriptorParams) : List (List Nat) :=
  [ configuration_descriptor0 p,
    configuration_descriptor1 p,
    configuration_descriptor2 p,
    configuration_descriptor3 p,
    configuration_descriptor4 p,
    configuration_descriptor5 p ]

/-- The field `wTotalLength` of a serialized configuration descriptor: bytes 2
and 3, low byte first. -/
def wTotalLength (cfg : List Nat) : Nat :=
  cfg.getD 2 0 + 2 ^ 8 * cfg.getD 3 0

/-! ## Reading a serialized configuration descriptor

A configuration descriptor is a sequence of blocks; byte 0 of a block is its
length and byte 1 its descriptor type.  The functions below read a serialized
configuration the way a host does. -/

/-- The blocks of a serialized descriptor, cut at the length bytes.  The first
argument bounds the number of blocks. -/
def descriptor_blocks : Nat → List Nat → List (List Nat)
  | 0, _ => []
  | fuel + 1, bytes =>
    match bytes with
    | [] => []
    | bLength :: rest =>
      if bLength = 0 then []
      else (bLength :: rest).take bLength :: descriptor_blocks fuel ((bLength :: rest).drop bLength)

/-- The blocks of a serialized configuration descriptor. -/
def config_blocks (cfg : List Nat) : List (List Nat) :=
  descriptor_blocks cfg.length cfg

/-- The field `bNumInterfaces` of the configuration header (byte 4). -/
def bNumInterfaces (cfg : List Nat) : Nat :=
  cfg.getD 4 0

/-- The interface blocks of a configuration. -/
def interface_blocks (cfg : List Nat) : List (List Nat) :=
  (config_blocks cfg).filter (fun b => b.getD 1 0 == TUSB_DESC_INTERFACE)

/-- The blocks that describe interface `itf`: its interface block and the
blocks that follow it up to the next interface block. -/
def interface_section (cfg : List Nat) (itf : Nat) : List (List Nat) :=
  match (config_blocks cfg).dropWhile
      (fun b => !(b.getD 1 0 == TUSB_DESC_INTERFACE && b.getD 2 0 == itf)) with
  | [] => []
  | b :: rest => b :: rest.takeWhile (fun c => c.getD 1 0 != TUSB_DESC_INTERFACE)

/-- The field `bNumEndpoints` of interface `itf` (byte 4 of its interface
block). -/
def bNumEndpoints (cfg : List Nat) (itf : Nat) : Nat :=
  ((interface_section cfg itf).headD []).getD 4 0

/-- The field `bInterfaceProtocol` of interface `itf` (byte 7 of its interface
block). -/
def bInterfaceProtocol (cfg : List Nat) (itf : Nat) : Nat :=
  ((interface_section cfg itf).headD []).getD 7 0

/-- The endpoint addresses (`bEndpointAddress`, byte 2 of an endpoint block)
of interface `itf`, in the order of the blocks. -/
def endpoint_addresses (cfg : List Nat) (itf : Nat) : List Nat :=
  ((interface_section cfg itf).filter (fun b => b.getD 1 0 == TUSB_DESC_ENDPOINT)).map
    (fun b => b.getD 2 0)

/-- An endpoint address with bit 7 clear is an OUT endpoint. -/
def is_out_endpoint (addr : Nat) : Bool :=
  addr &&& 0x80 == 0

/-- The report-descriptor length bytes (`wDescriptorLength`, bytes 7 and 8 of
the HID block) of interface `itf`. -/
def report_descriptor_length_bytes (cfg : List Nat) (itf : Nat) : List (List Nat) :=
  ((interface_section cfg itf).filter (fun b => b.getD 1 0 == HID_DESC_TYPE_HID)).map
    (fun b => [b.getD 7 0, b.getD 8 0])

/-- Interface 0 of the configuration is bidirectional: it has two endpoints,
one OUT and one IN. -/
def is_bidirectional (cfg : List Nat) : Bool :=
  bNumEndpoints cfg 0 == 2 &&
    (endpoint_addresses cfg 0).any is_out_endpoint &&
    (endpoint_addresses cfg 0).any (fun a => !is_out_endpoint a)

/-- All endpoint addresses of a configuration, in the order of the blocks. -/
def all_endpoint_addresses (cfg : List Nat) : List Nat :=
  ((config_blocks cfg).filter (fun b => b.getD 1 0 == TUSB_DESC_ENDPOINT)).map
    (fun b => b.getD 2 0)

/-! ## The callbacks as operations on the state of the core -/

/-- The mutable state of the file: the two protocol flags and the buffer
`_desc_str`. -/
structure CoreState where
  flags : ProtocolState
  desc_str : DescStr

/-- A callback invocation with its arguments. -/
inductive CoreOp
  | set_protocol (instance_ protocol : Nat)
  | mount
  | descriptor_string (index langid : Nat)
  | get_report (itf report_id report_type : Nat) (buffer : List Nat) (reqlen : Nat)
  | set_report (itf report_id report_type : Nat) (buffer : List Nat) (bufsize : Nat)

/-- One callback invocation on the state of the core.  The external handlers
are taken not to write the state; `tud_descriptor_string_cb` runs on the table
of the firmware and writes the buffer only. -/
def core_step (unique_id : Nat) (s : CoreState) : CoreOp → CoreState
  | CoreOp.set_protocol instance_ protocol =>
    CoreState.mk (tud_hid_set_protocol_cb instance_ protocol s.flags) s.desc_str
  | CoreOp.mount => CoreState.mk (tud_mount_cb s.flags).2 s.desc_str
  | CoreOp.descriptor_string index langid =>
    match tud_descriptor_string_cb string_desc_arr unique_id index langid s.desc_str with
    | some r => CoreState.mk s.flags r.desc_str
    | none => s
  | CoreOp.get_report _ _ _ _ _ => s
  | CoreOp.set_report _ _ _ _ _ => s

/-- A sequence of callback invocations. -/
def core_run (unique_id : Nat) (s : CoreState) (ops : List CoreOp) : CoreState :=
  ops.foldl (core_step unique_id) s

/-! ## Auxiliary facts about the stores and the two loops -/

theorem store_eq_some (d : DescStr) (p : Nat) (v : Nat) (h : p < 32) :
    store d (p : Int) v = some (fun j => if j = p then v % 2 ^ 16 else d j) := by
  unfold store
  have h1 : (0 : Int) ≤ (p : Int) ∧ (p : Int) < 32 := by omega
  rw [if_pos h1]
  congr 1
  funext j
  simp only [Nat.cast_inj]

theorem widen_loop_eq (str : List Nat) (count : Nat) (h : count ≤ 31) (d : DescStr) :
    widen_loop str count d
      = some (fun j => if 1 ≤ j ∧ j ≤ count then str.getD (j - 1) 0 % 2 ^ 16 else d j) := by
  induction count with
  | zero =>
    simp only [widen_loop, List.range_zero, List.foldlM_nil]
    congr 1
    funext j
    have : ¬ (1 ≤ j ∧ j ≤ 0) := by omega
    simp only [this, if_false, pure]
  | succ n ih =>
    have ih1 := ih (by omega)
    unfold widen_loop at ih1 ⊢
    rw [List.range_succ, List.foldlM_append, ih1]
    simp only [Option.bind_eq_bind, Option.some_bind, List.foldlM_cons, List.foldlM_nil]
    have hp : (1 : Int) + (n : Int) = ((n + 1 : Nat) : Int) := by omega
    rw [hp, store_eq_some _ _ _ (by omega)]
    simp only [Option.some_bind, pure]
    congr 1
    funext j
    by_cases hj : j = n + 1
    · subst hj
      simp
    · have : (1 ≤ j ∧ j ≤ n + 1) ↔ (1 ≤ j ∧ j ≤ n) := by omega
      simp only [hj, if_false, this]

theorem id_chars_lt (k : Nat) : id_chars.getD k 0 < 2 ^ 16 := by
  by_cases hk : k < 33
  · interval_cases k <;> decide
  · rw [List.getD_eq_default _ _ (by simpa [id_chars] using hk)]
    decide

theorem unique_id_loop_eq (unique_id count : Nat) (h3 : 3 ≤ count) (h : count ≤ 31)
    (d : DescStr) :
    unique_id_loop unique_id count d
      = some (fun j =>
          if j = count then id_chars.getD ((unique_id >>> (3 * 5)) &&& 0x1F) 0
          else if j = count - 1 then id_chars.getD ((unique_id >>> (2 * 5)) &&& 0x1F) 0
          else if j = count - 2 then id_chars.getD ((unique_id >>> (1 * 5)) &&& 0x1F) 0
          else if j = count - 3 then id_chars.getD ((unique_id >>> (0 * 5)) &&& 0x1F) 0
          else d j) := by
  have p0 : (1 : Int) + (count : Int) - 4 + ((0 : Nat) : Int) = ((count - 3 : Nat) : Int) := by omega
  have p1 : (1 : Int) + (count : Int) - 4 + ((1 : Nat) : Int) = ((count - 2 : Nat) : Int) := by omega
  have p2 : (1 : Int) + (count : Int) - 4 + ((2 : Nat) : Int) = ((count - 1 : Nat) : Int) := by omega
  have p3 : (1 : Int) + (count : Int) - 4 + ((3 : Nat) : Int) = ((count : Nat) : Int) := by omega
  have hr : List.range 4 = [0, 1, 2, 3] := by decide
  unfold unique_id_loop
  rw [hr]
  simp only [List.foldlM_cons, List.foldlM_nil, Option.bind_eq_bind]
  rw [p0, store_eq_some _ _ _ (by omega)]
  simp only [Option.some_bind]
  rw [p1, store_eq_some _ _ _ (by omega)]
  simp only [Option.some_bind]
  rw [p2, store_eq_some _ _ _ (by omega)]
  simp only [Option.some_bind]
  rw [p3, store_eq_some _ _ _ (by omega)]
  simp only [Option.some_bind, pure, Nat.mod_eq_of_lt (id_chars_lt _)]

theorem chr_count_le (str : List Nat) : chr_count str ≤ 31 := by
  unfold chr_count
  simp only
  split <;> omega

/-- The header store, the last statement before `return _desc_str`. -/
theorem header_store_eq (count : Nat) (d : DescStr) :
    (store d 0 ((TUSB_DESC_STRING <<< 8) ||| (2 * count + 2))).map
        (fun d1 => StringCbResult.mk true d1)
      = some (StringCbResult.mk true
          (fun j => if j = 0 then ((TUSB_DESC_STRING <<< 8) ||| (2 * count + 2)) % 2 ^ 16
            else d j)) := by
  have h := store_eq_some d 0 ((TUSB_DESC_STRING <<< 8) ||| (2 * count + 2)) (by decide)
  simp only [Nat.cast_zero] at h
  rw [h]
  rfl

/-- The buffer after a request for a string entry other than the product
string. -/
theorem string_cb_plain_entry (tbl : List (List Nat)) (unique_id index langid : Nat)
    (d : DescStr) (h0 : index ≠ 0) (hEE : index ≠ 0xEE) (h2 : index ≠ 2)
    (hlen : index < tbl.length) :
    tud_descriptor_string_cb tbl unique_id index langid d
      = some (StringCbResult.mk true (fun j =>
          if j = 0 then
            ((TUSB_DESC_STRING <<< 8) ||| (2 * chr_count (tbl.getD index []) + 2)) % 2 ^ 16
          else if 1 ≤ j ∧ j ≤ chr_count (tbl.getD index []) then
            (tbl.getD index []).getD (j - 1) 0 % 2 ^ 16
          else d j)) := by
  unfold tud_descriptor_string_cb
  simp only [if_neg h0, if_neg hEE, if_neg h2, if_neg (not_le.mpr hlen)]
  rw [widen_loop_eq _ _ (chr_count_le _)]
  simp only [Option.some_bind]
  rw [header_store_eq]

/-- The buffer after a request for the product string, for a table whose
product string keeps at least 3 code units. -/
theorem string_cb_product_entry (tbl : List (List Nat)) (unique_id langid : Nat)
    (d : DescStr) (hlen : 2 < tbl.length) (h3 : 3 ≤ chr_count (tbl.getD 2 [])) :
    tud_descriptor_string_cb tbl unique_id 2 langid d
      = some (StringCbResult.mk true (fun j =>
          if j = 0 then
            ((TUSB_DESC_STRING <<< 8) ||| (2 * chr_count (tbl.getD 2 []) + 2)) % 2 ^ 16
          else if j = chr_count (tbl.getD 2 []) then
            id_chars.getD ((unique_id >>> (3 * 5)) &&& 0x1F) 0
          else if j = chr_count (tbl.getD 2 []) - 1 then
            id_chars.getD ((unique_id >>> (2 * 5)) &&& 0x1F) 0
          else if j = chr_count (tbl.getD 2 []) - 2 then
            id_chars.getD ((unique_id >>> (1 * 5)) &&& 0x1F) 0
          else if j = chr_count (tbl.getD 2 []) - 3 then
            id_chars.getD ((unique_id >>> (0 * 5)) &&& 0x1F) 0
          else if 1 ≤ j ∧ j ≤ chr_count (tbl.getD 2 []) then
            (tbl.getD 2 []).getD (j - 1) 0 % 2 ^ 16
          else d j)) := by
  unfold tud_descriptor_string_cb
  have h0 : ¬ (2 = 0) := by decide
  have hEE : ¬ (2 = 0xEE) := by decide
  simp only [if_neg h0, if_neg hEE, if_neg (not_le.mpr hlen), if_true]
  rw [widen_loop_eq _ _ (chr_count_le _)]
  simp only [Option.some_bind]
  rw [unique_id_loop_eq _ _ h3 (chr_count_le _)]
  simp only [Option.some_bind]
  rw [header_store_eq]

theorem string_desc_arr_length : string_desc_arr.length = 3 := by decide

theorem chr_count_product : chr_count (string_desc_arr.getD 2 []) = 16 := by decide

theorem chr_count_manufacturer : chr_count (string_desc_arr.getD 1 []) = 5 := by decide

/-- The symbols of `id_chars` are the symbols of the alphabet `0-9A-V`. -/
theorem id_chars_eq_alphabet (k : Nat) (hk : k < 32) :
    id_chars.getD k 0 = spec_alphabet.getD k 0 := by
  interval_cases k <;> decide

/-- The expression `(unique_id >> (i * 5)) & 0x1F` is the base-32 digit `i`. -/
theorem shift_mask_eq (u s : Nat) : (u >>> s) &&& 0x1F = u / 2 ^ s % 32 := by
  rw [Nat.shiftRight_eq_div_pow]
  exact Nat.and_pow_two_sub_one_eq_mod _ 5

/-- A symbol picked by the loop is the symbol of the alphabet for the base-32
digit. -/
theorem id_char_digit (u s : Nat) :
    id_chars.getD ((u >>> s) &&& 0x1F) 0 = spec_alphabet.getD (u / 2 ^ s % 32) 0 := by
  rw [shift_mask_eq]
  exact id_chars_eq_alphabet _ (Nat.mod_lt _ (by decide))

/-- The symbol index of iteration `i < 4` only reads bits [0,20) of the unique
id. -/
theorem id_index_low_bits (u1 u2 : Nat) (h : u1 % 2 ^ 20 = u2 % 2 ^ 20) (i : Nat)
    (hi : i < 4) :
    (u1 >>> (i * 5)) &&& 0x1F = (u2 >>> (i * 5)) &&& 0x1F := by
  rw [shift_mask_eq, shift_mask_eq]
  interval_cases i <;> simp only [Nat.reduceMul, Nat.reducePow] <;> omega

/-- The suffix loop gives the same buffer, or the same fault, for two unique
ids with the same low 20 bits. -/
theorem unique_id_loop_low_bits (u1 u2 : Nat) (h : u1 % 2 ^ 20 = u2 % 2 ^ 20)
    (count : Nat) (d : DescStr) :
    unique_id_loop u1 count d = unique_id_loop u2 count d := by
  have hr : List.range 4 = [0, 1, 2, 3] := by decide
  unfold unique_id_loop
  rw [hr]
  simp only [List.foldlM_cons, List.foldlM_nil]
  rw [id_index_low_bits u1 u2 h 0 (by decide), id_index_low_bits u1 u2 h 1 (by decide),
    id_index_low_bits u1 u2 h 2 (by decide), id_index_low_bits u1 u2 h 3 (by decide)]

/-- A callback other than `tud_hid_set_protocol_cb` never turns
`boot_protocol_keyboard` on, and no callback turns `boot_protocol_updated`
off. -/
theorem core_step_flags (unique_id : Nat) (s : CoreState) (op : CoreOp) :
    (s.flags.boot_protocol_updated = true →
        (core_step unique_id s op).flags.boot_protocol_updated = true) ∧
      ((core_step unique_id s op).flags.boot_protocol_keyboard = true →
        s.flags.boot_protocol_keyboard = true ∨
          ∃ instance_, op = CoreOp.set_protocol instance_ HID_PROTOCOL_BOOT) := by
  obtain ⟨⟨k, u⟩, d⟩ := s
  cases op with
  | set_protocol instance_ protocol =>
    refine ⟨fun _ => rfl, fun hk => Or.inr ⟨instance_, ?_⟩⟩
    have hp : protocol = HID_PROTOCOL_BOOT := of_decide_eq_true hk
    rw [hp]
  | mount =>
    cases k <;> cases u <;> simp [core_step, tud_mount_cb]
  | descriptor_string index langid =>
    simp only [core_step]
    split <;> exact ⟨fun hu => hu, fun hk => Or.inl hk⟩
  | get_report itf report_id report_type buffer reqlen =>
    exact ⟨fun hu => hu, fun hk => Or.inl hk⟩
  | set_report itf report_id report_type buffer bufsize =>
    exact ⟨fun hu => hu, fun hk => Or.inl hk⟩

theorem chr_count_of_lt (str : List Nat) (h : strlen str < 256) :
    chr_count str = min (strlen str) 31 := by
  unfold chr_count
  simp only
  have h1 : strlen str % 2 ^ 8 = strlen str := Nat.mod_eq_of_lt (by omega)
  rw [h1]
  split <;> omega

theorem getD_lt_of_forall (str : List Nat) (b : Nat) (hb : 0 < b) (h : ∀ c ∈ str, c < b)
    (i : Nat) : str.getD i 0 < b := by
  by_cases hi : i < str.length
  · rw [List.getD_eq_getElem _ _ hi]
    exact h _ (List.getElem_mem _)
  · rw [List.getD_eq_default _ _ (by omega)]
    exact hb

/-- The buffer after a request for index 0. -/
theorem string_cb_langid_entry (tbl : List (List Nat)) (unique_id langid : Nat)
    (d : DescStr) :
    tud_descriptor_string_cb tbl unique_id 0 langid d
      = some (StringCbResult.mk true (fun j =>
          if j = 0 then ((TUSB_DESC_STRING <<< 8) ||| (2 * 1 + 2)) % 2 ^ 16
          else if j = 1 then
            ((tbl.getD 0 []).getD 0 0 + 2 ^ 8 * (tbl.getD 0 []).getD 1 0) % 2 ^ 16
          else d j)) := by
  have h1 := store_eq_some d 1
    ((tbl.getD 0 []).getD 0 0 + 2 ^ 8 * (tbl.getD 0 []).getD 1 0) (by decide)
  simp only [Nat.cast_one] at h1
  unfold tud_descriptor_string_cb
  simp only [if_true, h1, Option.some_bind, header_store_eq]

/-- No store of `tud_descriptor_string_cb` leaves the buffer when the product
string keeps at least 3 code units. -/
theorem string_cb_isSome (tbl : List (List Nat)) (unique_id index langid : Nat)
    (d : DescStr) (h3 : 3 ≤ chr_count (tbl.getD 2 [])) :
    (tud_descriptor_string_cb tbl unique_id index langid d).isSome = true := by
  by_cases h0 : index = 0
  · subst h0
    rw [string_cb_langid_entry]
    rfl
  · by_cases hEE : index = 0xEE
    · unfold tud_descriptor_string_cb
      simp only [if_neg h0, if_pos hEE]
      rfl
    · by_cases hlen : index < tbl.length
      · by_cases h2 : index = 2
        · subst h2
          rw [string_cb_product_entry tbl unique_id langid d hlen h3]
          rfl
        · rw [string_cb_plain_entry tbl unique_id index langid d h0 hEE h2 hlen]
          rfl
      · unfold tud_descriptor_string_cb
        simp only [if_neg h0, if_neg hEE, if_pos (not_lt.mp hlen)]
        rfl

/-! ## The claims -/

/-- C1: for every unique id and language id, the request for string index 2
returns the descriptor, the count of code units is 16, and the last four data
code units (buffer words 13 to 16) are `id_chars[(U >> 0) & 31]`,
`id_chars[(U >> 5) & 31]`, `id_chars[(U >> 10) & 31]`, `id_chars[(U >> 15) & 31]`
in this order, which is the base-32 encoding over `0-9A-V` of bits [0,20) of
the unique id, least-significant group first. -/
theorem product_string_suffix_is_base32 (unique_id langid : Nat) (desc_str : DescStr) :
    ∃ r, tud_descriptor_string_cb string_desc_arr unique_id 2 langid desc_str = some r ∧
      r.ret = true ∧
      written_count string_desc_arr 2 = 16 ∧
      r.desc_str (1 + (16 - 4) + 0) = id_chars.getD ((unique_id >>> 0) &&& 31) 0 ∧
      r.desc_str (1 + (16 - 4) + 1) = id_chars.getD ((unique_id >>> 5) &&& 31) 0 ∧
      r.desc_str (1 + (16 - 4) + 2) = id_chars.getD ((unique_id >>> 10) &&& 31) 0 ∧
      r.desc_str (1 + (16 - 4) + 3) = id_chars.getD ((unique_id >>> 15) &&& 31) 0 ∧
      [r.desc_str 13, r.desc_str 14, r.desc_str 15, r.desc_str 16]
        = spec_base32_lsf 4 (unique_id % 2 ^ 20) := by
  refine ⟨_, string_cb_product_entry string_desc_arr unique_id langid desc_str
    (by decide) (by decide), rfl, by decide, ?_⟩
  simp only [chr_count_product]
  refine ⟨by simp, by simp, by simp, by simp, ?_⟩
  simp only [spec_base32_lsf]
  have e0 : unique_id % 2 ^ 20 % 32 = unique_id / 2 ^ (0 * 5) % 32 := by omega
  have e1 : unique_id % 2 ^ 20 / 32 % 32 = unique_id / 2 ^ (1 * 5) % 32 := by omega
  have e2 : unique_id % 2 ^ 20 / 32 / 32 % 32 = unique_id / 2 ^ (2 * 5) % 32 := by omega
  have e3 : unique_id % 2 ^ 20 / 32 / 32 / 32 % 32 = unique_id / 2 ^ (3 * 5) % 32 := by omega
  rw [e0, e1, e2, e3, ← id_char_digit, ← id_char_digit, ← id_char_digit, ← id_char_digit]
  simp


/-- C2 as stated fails: for the unique id `0x000000000012345A` and language
`0x0409` the last four code units of the product string are not
`'Q', '2', '3', '4'` (the third 5-bit group of `0x2345A` is `0x0D`, not
`0x03`). -/
theorem product_string_example_not_Q234 :
    ¬ ∃ r, tud_descriptor_string_cb string_desc_arr 0x000000000012345A 2 0x0409 (fun _ => 0)
          = some r ∧
        [r.desc_str 13, r.desc_str 14, r.desc_str 15, r.desc_str 16]
          = ['Q'.toNat, '2'.toNat, '3'.toNat, '4'.toNat] := by
  rintro ⟨r, hr, hl⟩
  rw [string_cb_product_entry string_desc_arr _ _ _ (by decide) (by decide)] at hr
  cases hr
  simp only [chr_count_product] at hl
  revert hl
  decide

/-- C2, amended: for the unique id `0x000000000012345A` and language `0x0409`
the request for string index 2 returns the descriptor; the 5-bit groups of
`0x12345A & 0xFFFFF = 0x2345A`, in increasing significance order, are
`0x1A, 0x02, 0x0D, 0x04`, and the last four code units are these groups mapped
through `id_chars`, that is `'Q', '2', 'D', '4'`. -/
theorem product_string_example_Q2D4 (desc_str : DescStr) :
    ∃ r, tud_descriptor_string_cb string_desc_arr 0x000000000012345A 2 0x0409 desc_str
          = some r ∧
      r.ret = true ∧
      0x12345A &&& 0xFFFFF = 0x2345A ∧
      (List.range 4).map (fun i => (0x2345A >>> (i * 5)) &&& 0x1F) = [0x1A, 0x02, 0x0D, 0x04] ∧
      [r.desc_str 13, r.desc_str 14, r.desc_str 15, r.desc_str 16]
        = [0x1A, 0x02, 0x0D, 0x04].map (fun g => id_chars.getD g 0) ∧
      [r.desc_str 13, r.desc_str 14, r.desc_str 15, r.desc_str 16]
        = ['Q'.toNat, '2'.toNat, 'D'.toNat, '4'.toNat] := by
  refine ⟨_, string_cb_product_entry string_desc_arr _ _ desc_str (by decide) (by decide),
    rfl, by decide, by decide, ?_, ?_⟩ <;>
  · simp only [chr_count_product]
    rfl

/-- C3: the code at the input of the specification's example.  On interface 0
with report id 0, report type 0 and the 5-byte payload `1, 2, 3, 4, 5`,
`tud_hid_set_report_cb` calls `handle_set_report0` exactly once, with report id
`payload[0] = 1` and the buffer advanced to `2, 3, 4, 5`, but the length
passed is still 5 and not 4. -/
theorem set_report_quirk_keeps_bufsize :
    tud_hid_set_report_cb 0 0 0 [1, 2, 3, 4, 5] 5
        = [ExternCall.handle_set_report0 1 [2, 3, 4, 5] 5] ∧
      tud_hid_set_report_cb 0 0 0 [1, 2, 3, 4, 5] 5
        ≠ [ExternCall.handle_set_report0 1 [2, 3, 4, 5] 4] := by
  decide

/-- C4: for every language id, unique id and buffer, the request for index
`0xEE` and the request for any index of 3 or more return `nullptr` (and leave
the buffer as it was), and the requests for the indices 0, 1 and 2 return the
descriptor. -/
theorem string_cb_availability (unique_id langid index : Nat) (desc_str : DescStr)
    (h : 3 ≤ index) :
    tud_descriptor_string_cb string_desc_arr unique_id 0xEE langid desc_str
        = some (StringCbResult.mk false desc_str) ∧
      tud_descriptor_string_cb string_desc_arr unique_id index langid desc_str
        = some (StringCbResult.mk false desc_str) ∧
      (∃ r, tud_descriptor_string_cb string_desc_arr unique_id 0 langid desc_str = some r ∧
        r.ret = true) ∧
      (∃ r, tud_descriptor_string_cb string_desc_arr unique_id 1 langid desc_str = some r ∧
        r.ret = true) ∧
      (∃ r, tud_descriptor_string_cb string_desc_arr unique_id 2 langid desc_str = some r ∧
        r.ret = true) := by
  refine ⟨?_, ?_, ?_, ?_, ?_⟩
  · unfold tud_descriptor_string_cb
    simp
  · unfold tud_descriptor_string_cb
    have h0 : index ≠ 0 := by omega
    have hlen : index ≥ string_desc_arr.length := by
      rw [string_desc_arr_length]
      exact h
    simp only [if_neg h0, if_pos hlen, ite_self]
  · unfold tud_descriptor_string_cb
    have h1 := store_eq_some desc_str 1
      ((string_desc_arr.getD 0 []).getD 0 0 + 2 ^ 8 * (string_desc_arr.getD 0 []).getD 1 0)
      (by decide)
    simp only [Nat.cast_one] at h1
    simp only [if_true, h1, Option.some_bind, header_store_eq]
    exact ⟨_, rfl, rfl⟩
  · exact ⟨_, string_cb_plain_entry string_desc_arr unique_id 1 langid desc_str
      (by decide) (by decide) (by decide) (by decide), rfl⟩
  · exact ⟨_, string_cb_product_entry string_desc_arr unique_id langid desc_str
      (by decide) (by decide), rfl⟩

/-- C4 at a concrete input: index 3, unique id 0, language `0x0409`, a zeroed
buffer. -/
theorem string_cb_availability_witness :
    3 ≤ 3 ∧
      tud_descriptor_string_cb string_desc_arr 0 0xEE 0x0409 (fun _ => 0)
        = some (StringCbResult.mk false (fun _ => 0)) ∧
      tud_descriptor_string_cb string_desc_arr 0 3 0x0409 (fun _ => 0)
        = some (StringCbResult.mk false (fun _ => 0)) ∧
      (∃ r, tud_descriptor_string_cb string_desc_arr 0 0 0x0409 (fun _ => 0) = some r ∧
        r.ret = true) ∧
      (∃ r, tud_descriptor_string_cb string_desc_arr 0 1 0x0409 (fun _ => 0) = some r ∧
        r.ret = true) ∧
      (∃ r, tud_descriptor_string_cb string_desc_arr 0 2 0x0409 (fun _ => 0) = some r ∧
        r.ret = true) :=
  ⟨by decide, string_cb_availability 0 0x0409 3 (fun _ => 0) (by decide)⟩

/-- C6: for every prior state, instance and protocol value `p`,
`tud_hid_set_protocol_cb` leaves `boot_protocol_keyboard = (p == HID_PROTOCOL_BOOT)`
and `boot_protocol_updated = true`; a second call with the same `p` (for any
instance) gives the same state as the first call, with the flag set after each
of the two calls. -/
theorem set_protocol_sets_flags (s : ProtocolState) (instance_ instance2 p : Nat) :
    (tud_hid_set_protocol_cb instance_ p s).boot_protocol_keyboard
        = decide (p = HID_PROTOCOL_BOOT) ∧
      (tud_hid_set_protocol_cb instance_ p s).boot_protocol_updated = true ∧
      tud_hid_set_protocol_cb instance2 p (tud_hid_set_protocol_cb instance_ p s)
        = tud_hid_set_protocol_cb instance_ p s ∧
      (tud_hid_set_protocol_cb instance2 p
        (tud_hid_set_protocol_cb instance_ p s)).boot_protocol_updated = true :=
  ⟨rfl, rfl, rfl, rfl⟩

/-- C7: for every prior state, after `tud_mount_cb` the flag
`boot_protocol_keyboard` is false and `boot_protocol_updated` is the prior
`boot_protocol_updated || boot_protocol_keyboard`: from a state with
`boot_protocol_keyboard = true` the result is (false, true), and from a state
with `boot_protocol_keyboard = false` the state is left exactly as it was. -/
theorem mount_leaves_report_protocol (s : ProtocolState) (updated : Bool) :
    (tud_mount_cb s).2.boot_protocol_keyboard = false ∧
      (tud_mount_cb s).2.boot_protocol_updated
        = (s.boot_protocol_updated || s.boot_protocol_keyboard) ∧
      (tud_mount_cb (ProtocolState.mk true updated)).2 = ProtocolState.mk false true ∧
      (tud_mount_cb (ProtocolState.mk false updated)).2 = ProtocolState.mk false updated := by
  obtain ⟨k, u⟩ := s
  cases k <;> cases u <;> cases updated <;> decide

/-- C8: the table `configuration_descriptors` has six entries, and for every
configuration index `i` in [0,5] and all values of the external lengths the
entry `i` exists, starts with the 9-byte configuration header produced by
`TUD_CONFIG_DESCRIPTOR`, and the field `wTotalLength` of that header (bytes 2
and 3, low byte first) equals the number of bytes of the serialized array:
59 for the configurations 0, 1, 3, 5 and 66 for the configurations 2 and 4. -/
theorem config_total_length_matches (p : DescriptorParams) (i : Nat) (h : i < 6) :
    (configuration_descriptors p).length = 6 ∧
      (∃ cfg, (configuration_descriptors p).get? i = some cfg ∧
        cfg.take 2 = [9, TUSB_DESC_CONFIGURATION] ∧
        TUD_CONFIG_DESC_LEN ≤ cfg.length ∧
        cfg.take TUD_CONFIG_DESC_LEN = TUD_CONFIG_DESCRIPTOR 1 2 0 cfg.length 0 100 ∧
        wTotalLength cfg = cfg.length ∧
        [cfg.getD 2 0, cfg.getD 3 0] = U16_TO_U8S_LE cfg.length) ∧
      (configuration_descriptors p).map (fun c => (wTotalLength c, c.length))
        = [(59, 59), (59, 59), (66, 66), (59, 59), (66, 66), (59, 59)] := by
  refine ⟨rfl, ?_, ?_⟩
  · interval_cases i <;>
      simp [wTotalLength, configuration_descriptors, configuration_descriptor0,
        configuration_descriptor1, configuration_descriptor2, configuration_descriptor3,
        configuration_descriptor4, configuration_descriptor5, TUD_CONFIG_DESCRIPTOR,
        TUD_HID_DESCRIPTOR, TUD_HID_INOUT_DESCRIPTOR, U16_TO_U8S_LE, TUD_CONFIG_DESC_LEN,
        TUD_HID_DESC_LEN, TUD_HID_INOUT_DESC_LEN, TUSB_DESC_CONFIGURATION] <;> decide
  · simp [wTotalLength, configuration_descriptors, configuration_descriptor0,
      configuration_descriptor1, configuration_descriptor2, configuration_descriptor3,
      configuration_descriptor4, configuration_descriptor5, TUD_CONFIG_DESCRIPTOR,
      TUD_HID_DESCRIPTOR, TUD_HID_INOUT_DESCRIPTOR, U16_TO_U8S_LE, TUD_CONFIG_DESC_LEN,
      TUD_HID_DESC_LEN, TUD_HID_INOUT_DESC_LEN]
    decide

/-- C8 at a concrete input: configuration 2 (the first one with an IN and an
OUT endpoint on interface 0), with report descriptor lengths 100 and 40 and
endpoint size 64; the declared and the actual length are both 66. -/
theorem config_total_length_matches_witness :
    2 < 6 ∧
      (configuration_descriptors (DescriptorParams.mk (fun _ => 100) 40 64)).length = 6 ∧
      (∃ cfg, (configuration_descriptors (DescriptorParams.mk (fun _ => 100) 40 64)).get? 2
          = some cfg ∧
        cfg.take 2 = [9, TUSB_DESC_CONFIGURATION] ∧
        TUD_CONFIG_DESC_LEN ≤ cfg.length ∧
        cfg.take TUD_CONFIG_DESC_LEN = TUD_CONFIG_DESCRIPTOR 1 2 0 cfg.length 0 100 ∧
        wTotalLength cfg = cfg.length ∧
        [cfg.getD 2 0, cfg.getD 3 0] = U16_TO_U8S_LE cfg.length) ∧
      (configuration_descriptors (DescriptorParams.mk (fun _ => 100) 40 64)).map
          (fun c => (wTotalLength c, c.length))
        = [(59, 59), (59, 59), (66, 66), (59, 59), (66, 66), (59, 59)] :=
  ⟨by decide, config_total_length_matches (DescriptorParams.mk (fun _ => 100) 40 64) 2
    (by decide)⟩

/-- C9: for every interface number, report id, report type, buffer and
requested length, `tud_hid_get_report_cb` makes exactly one external call, with
the report id, buffer and length it received, and returns the value of that
handler: `handle_get_report0` for interface 0 and `handle_get_report1` for
interface 1. -/
theorem get_report_delegates (get_report0 get_report1 : Nat → List Nat → Nat → Nat)
    (itf report_id report_type : Nat) (buffer : List Nat) (reqlen : Nat) :
    (tud_hid_get_report_cb get_report0 get_report1 itf report_id report_type buffer
        reqlen).1.length = 1 ∧
      tud_hid_get_report_cb get_report0 get_report1 0 report_id report_type buffer reqlen
        = ([ExternCall.handle_get_report0 report_id buffer reqlen],
            get_report0 report_id buffer reqlen) ∧
      tud_hid_get_report_cb get_report0 get_report1 1 report_id report_type buffer reqlen
        = ([ExternCall.handle_get_report1 report_id buffer reqlen],
            get_report1 report_id buffer reqlen) ∧
      (tud_hid_get_report_cb get_report0 get_report1 itf report_id report_type buffer reqlen
          = ([ExternCall.handle_get_report0 report_id buffer reqlen],
              get_report0 report_id buffer reqlen) ∨
        tud_hid_get_report_cb get_report0 get_report1 itf report_id report_type buffer reqlen
          = ([ExternCall.handle_get_report1 report_id buffer reqlen],
              get_report1 report_id buffer reqlen)) := by
  refine ⟨?_, rfl, rfl, ?_⟩
  · unfold tud_hid_get_report_cb
    split <;> rfl
  · unfold tud_hid_get_report_cb
    by_cases h : itf = 0
    · exact Or.inl (by rw [if_pos h])
    · exact Or.inr (by rw [if_neg h])

/-- C10: on interface 1 `tud_hid_set_report_cb` calls `handle_set_report1` once
with the report id, buffer and length it received, whatever they are.  On
interface 0 it calls `handle_set_report0` once; the report id and the buffer
are replaced by `buffer[0]` and the advanced buffer if `report_id == 0`,
`report_type == 0` and `bufsize > 0`, and are passed on as received otherwise.
For a payload of `bufsize` bytes, the handler receives the report id and the
payload unchanged exactly when the condition fails. -/
theorem set_report_quirk_only_on_interface0 (report_id report_type : Nat)
    (buffer : List Nat) (bufsize : Nat) :
    tud_hid_set_report_cb 1 report_id report_type buffer bufsize
        = [ExternCall.handle_set_report1 report_id buffer bufsize] ∧
      tud_hid_set_report_cb 1 0 0 buffer bufsize
        = [ExternCall.handle_set_report1 0 buffer bufsize] ∧
      tud_hid_set_report_cb 0 report_id report_type buffer bufsize
        = (if report_id = 0 ∧ report_type = 0 ∧ bufsize > 0 then
            [ExternCall.handle_set_report0 (buffer.headD 0) buffer.tail bufsize]
          else
            [ExternCall.handle_set_report0 report_id buffer bufsize]) ∧
      (tud_hid_set_report_cb 0 report_id report_type buffer buffer.length
          = [ExternCall.handle_set_report0 report_id buffer buffer.length]
        ↔ ¬ (report_id = 0 ∧ report_type = 0 ∧ buffer ≠ [])) := by
  refine ⟨rfl, rfl, ?_, ?_⟩
  · unfold tud_hid_set_report_cb
    by_cases h : report_id = 0 ∧ report_type = 0 ∧ bufsize > 0
    · simp only [if_true, if_pos h]
    · simp only [if_true, if_neg h]
  · unfold tud_hid_set_report_cb
    by_cases h : report_id = 0 ∧ report_type = 0 ∧ buffer.length > 0
    · have hne : buffer ≠ [] := List.length_pos.mp h.2.2
      have htail : buffer.tail ≠ buffer := by
        intro e
        have := congrArg List.length e
        rw [List.length_tail] at this
        have := List.length_pos.mpr hne
        omega
      simp only [if_true, if_pos h]
      constructor
      · intro e
        injection e with e1
        injection e1 with _ e2
        exact absurd e2 htail
      · intro hn
        exact absurd ⟨h.1, h.2.1, hne⟩ hn
    · simp only [if_true, if_neg h, true_iff]
      rintro ⟨a, b, c⟩
      exact h ⟨a, b, List.length_pos.mpr c⟩

/-- C11: for every language id (and every unique id and prior buffer),
`tud_descriptor_string_cb(0, langid)` returns the descriptor; the header word
is `0x0304`, so the reported count is 1 code unit, and the single data code
unit is the language id `0x0409`, the bytes `0x09, 0x04` of entry 0 of the
table copied low byte first.  The other words of the buffer are left as they
were. -/
theorem langid_descriptor (unique_id langid : Nat) (desc_str : DescStr) :
    ∃ r, tud_descriptor_string_cb string_desc_arr unique_id 0 langid desc_str = some r ∧
      r.ret = true ∧
      written_count string_desc_arr 0 = 1 ∧
      r.desc_str 0 = 0x0304 ∧
      ((r.desc_str 0 &&& 0xFF) - 2) / 2 = 1 ∧
      r.desc_str 1 = 0x0409 ∧
      string_desc_arr.getD 0 [] = [r.desc_str 1 % 2 ^ 8, r.desc_str 1 / 2 ^ 8] ∧
      r.desc_str = (fun j => if j = 0 then 0x0304 else if j = 1 then 0x0409 else desc_str j) := by
  have h1 := store_eq_some desc_str 1
    ((string_desc_arr.getD 0 []).getD 0 0 + 2 ^ 8 * (string_desc_arr.getD 0 []).getD 1 0)
    (by decide)
  simp only [Nat.cast_one] at h1
  refine ⟨StringCbResult.mk true
    (fun j => if j = 0 then 0x0304 else if j = 1 then 0x0409 else desc_str j), ?_,
    rfl, by decide, rfl,
    by show ((0x0304 &&& 0xFF) - 2) / 2 = 1; decide,
    rfl,
    by show string_desc_arr.getD 0 [] = [0x0409 % 2 ^ 8, 0x0409 / 2 ^ 8]; decide,
    rfl⟩
  unfold tud_descriptor_string_cb
  simp only [if_true, h1, Option.some_bind, header_store_eq]
  congr 2

/-- C12 as stated fails, shown on the descriptors built with report
descriptor lengths 100 and 40 and endpoint size 64: interface 0 of
configuration 3 has protocol None and is not bidirectional (one IN endpoint
only), so it is neither a boot keyboard nor bidirectional, and two of the six
configurations are bidirectional, not three. -/
theorem config3_neither_keyboard_nor_bidirectional :
    ¬ (bInterfaceProtocol (configuration_descriptor3 (DescriptorParams.mk (fun _ => 100) 40 64)) 0
          = HID_ITF_PROTOCOL_KEYBOARD ∨
        is_bidirectional (configuration_descriptor3 (DescriptorParams.mk (fun _ => 100) 40 64))
          = true) ∧
      ((configuration_descriptors (DescriptorParams.mk (fun _ => 100) 40 64)).map
        is_bidirectional).count true ≠ 3 := by
  decide

/-- C12, amended: in the six configuration descriptors, interface 0 is a boot
keyboard (protocol Keyboard, one IN endpoint) in configurations 0 and 1, a
bidirectional HID interface (two endpoints, OUT and IN) with protocol None in
configurations 2 and 4, and a HID interface with protocol None and one IN
endpoint in configurations 3 and 5; so two of the six are bidirectional.
Interface 1 has protocol None in every configuration and the same report
descriptor length, `config_report_descriptor_length`, and every configuration
declares two interfaces and has two interface blocks.  The last part lists,
for the endpoints of interface 0 in block order, whether each is an IN
endpoint. -/
theorem config_interfaces_layout (p : DescriptorParams) :
    (configuration_descriptors p).map (fun c => bInterfaceProtocol c 0)
        = [HID_ITF_PROTOCOL_KEYBOARD, HID_ITF_PROTOCOL_KEYBOARD, HID_ITF_PROTOCOL_NONE,
            HID_ITF_PROTOCOL_NONE, HID_ITF_PROTOCOL_NONE, HID_ITF_PROTOCOL_NONE] ∧
      (configuration_descriptors p).map is_bidirectional
        = [false, false, true, false, true, false] ∧
      (configuration_descriptors p).map (fun c => bNumEndpoints c 0) = [1, 1, 2, 1, 2, 1] ∧
      ((configuration_descriptors p).map is_bidirectional).count true = 2 ∧
      (configuration_descriptors p).map (fun c => bInterfaceProtocol c 1)
        = List.replicate 6 HID_ITF_PROTOCOL_NONE ∧
      (configuration_descriptors p).map (fun c => report_descriptor_length_bytes c 1)
        = List.replicate 6 [U16_TO_U8S_LE p.config_report_descriptor_length] ∧
      (configuration_descriptors p).map bNumInterfaces = List.replicate 6 2 ∧
      (configuration_descriptors p).map (fun c => (interface_blocks c).length)
        = List.replicate 6 2 ∧
      (configuration_descriptors p).map
          (fun c => (endpoint_addresses c 0).map (fun a => !is_out_endpoint a))
        = [[true], [true], [false, true], [true], [false, true], [true]] := by
  have hdir : (configuration_descriptors p).map
        (fun c => (endpoint_addresses c 0).map (fun a => !is_out_endpoint a))
      = [[true], [true], [false, true], [true], [false, true], [true]] := by
    simp [config_blocks, configuration_descriptors, configuration_descriptor0,
      configuration_descriptor1, configuration_descriptor2, configuration_descriptor3,
      configuration_descriptor4, configuration_descriptor5, TUD_CONFIG_DESCRIPTOR,
      TUD_HID_DESCRIPTOR, TUD_HID_INOUT_DESCRIPTOR, U16_TO_U8S_LE, descriptor_blocks,
      TUSB_DESC_CONFIGURATION, TUSB_DESC_INTERFACE, TUSB_DESC_ENDPOINT, TUSB_CLASS_HID,
      HID_SUBCLASS_BOOT, HID_ITF_PROTOCOL_NONE, HID_ITF_PROTOCOL_KEYBOARD, HID_DESC_TYPE_HID,
      HID_DESC_TYPE_REPORT, TUSB_XFER_INTERRUPT, endpoint_addresses, interface_section,
      is_out_endpoint]
    decide
  have hb : (configuration_descriptors p).map is_bidirectional
      = [false, false, true, false, true, false] := by
    simp [config_blocks, configuration_descriptors, configuration_descriptor0,
      configuration_descriptor1, configuration_descriptor2, configuration_descriptor3,
      configuration_descriptor4, configuration_descriptor5, TUD_CONFIG_DESCRIPTOR,
      TUD_HID_DESCRIPTOR, TUD_HID_INOUT_DESCRIPTOR, U16_TO_U8S_LE, descriptor_blocks,
      TUSB_DESC_CONFIGURATION, TUSB_DESC_INTERFACE, TUSB_DESC_ENDPOINT, TUSB_CLASS_HID,
      HID_SUBCLASS_BOOT, HID_ITF_PROTOCOL_NONE, HID_ITF_PROTOCOL_KEYBOARD, HID_DESC_TYPE_HID,
      HID_DESC_TYPE_REPORT, TUSB_XFER_INTERRUPT, endpoint_addresses, interface_section,
      is_bidirectional, bNumEndpoints, is_out_endpoint]
    decide
  refine ⟨?_, hb, ?_, by rw [hb]; decide, ?_, ?_, ?_, ?_, hdir⟩ <;>
  simp [config_blocks, configuration_descriptors, configuration_descriptor0,
      configuration_descriptor1, configuration_descriptor2, configuration_descriptor3,
      configuration_descriptor4, configuration_descriptor5, TUD_CONFIG_DESCRIPTOR,
      TUD_HID_DESCRIPTOR, TUD_HID_INOUT_DESCRIPTOR, U16_TO_U8S_LE, descriptor_blocks,
      TUD_CONFIG_DESC_LEN, TUD_HID_DESC_LEN, TUD_HID_INOUT_DESC_LEN,
      TUSB_DESC_CONFIGURATION, TUSB_DESC_INTERFACE, TUSB_DESC_ENDPOINT, TUSB_CLASS_HID,
      HID_SUBCLASS_BOOT, HID_ITF_PROTOCOL_NONE, HID_ITF_PROTOCOL_KEYBOARD, HID_DESC_TYPE_HID,
      HID_DESC_TYPE_REPORT, TUSB_XFER_INTERRUPT, endpoint_addresses, interface_section,
      is_bidirectional, bNumEndpoints, bInterfaceProtocol, bNumInterfaces, interface_blocks,
      report_descriptor_length_bytes, is_out_endpoint]

set_option maxRecDepth 100000 in
/-- C13 as stated fails for table entries the 8-bit `chr_count` cannot hold
and for entries the function does not copy: an entry of 256 characters `'A'`
at index 1 gives the count 0, not `min(256, 31) = 31`; a product string of 2
characters makes the suffix loop store before the start of the buffer; and an
entry at index `0xEE` of a table of 239 entries is never copied. -/
theorem long_entry_count_wraps :
    strlen (List.replicate 256 65) = 256 ∧
      written_count [[9, 4], List.replicate 256 65, [88, 88, 88, 88]] 1 = 0 ∧
      written_count [[9, 4], List.replicate 256 65, [88, 88, 88, 88]] 1 ≠ min 256 31 ∧
      (tud_descriptor_string_cb [[9, 4], List.replicate 256 65, [88, 88, 88, 88]] 0 1 0x0409
        (fun _ => 0)).map (fun r => r.desc_str 0) = some 0x0302 ∧
      (tud_descriptor_string_cb [[9, 4], [65], [65, 66]] 0 2 0x0409 (fun _ => 0)).isSome
        = false ∧
      (tud_descriptor_string_cb (List.replicate 239 [65]) 0 0xEE 0x0409 (fun _ => 0)).map
        (fun r => r.ret) = some false := by
  decide

/-- C13, amended: for every table entry at an index other than 0 and `0xEE`
inside the table whose source is a 7-bit ASCII string of length `n < 256`
(with `n ≥ 3` when the index is 2), the descriptor is returned, the count of
code units is `min(n, 31)`, and for every `i < count` the code unit at
position `1 + i` of the buffer is the source byte `i` (apart from the 4
overwritten suffix positions when the index is 2).  For the table of the
firmware, index 1 gives the count 5 and the code units `'Z','U','O','Y','A'`. -/
theorem ascii_entry_widened (tbl : List (List Nat)) (unique_id index langid : Nat)
    (desc_str : DescStr) (h0 : index ≠ 0) (hEE : index ≠ 0xEE) (hlen : index < tbl.length)
    (hascii : ∀ c ∈ tbl.getD index [], c < 128)
    (hn : strlen (tbl.getD index []) < 256)
    (h2 : index ≠ 2 ∨ 3 ≤ strlen (tbl.getD index [])) :
    (∃ r, tud_descriptor_string_cb tbl unique_id index langid desc_str = some r ∧
      r.ret = true ∧
      written_count tbl index = min (strlen (tbl.getD index [])) 31 ∧
      ∀ i, i < min (strlen (tbl.getD index [])) 31 →
        (index ≠ 2 ∨ i + 4 < min (strlen (tbl.getD index [])) 31) →
        r.desc_str (1 + i) = (tbl.getD index []).getD i 0) ∧
    (∃ r, tud_descriptor_string_cb string_desc_arr unique_id 1 langid desc_str = some r ∧
      r.ret = true ∧
      written_count string_desc_arr 1 = 5 ∧
      [r.desc_str 1, r.desc_str 2, r.desc_str 3, r.desc_str 4, r.desc_str 5]
        = ['Z'.toNat, 'U'.toNat, 'O'.toNat, 'Y'.toNat, 'A'.toNat]) := by
  have hcount := chr_count_of_lt _ hn
  have hw : written_count tbl index = min (strlen (tbl.getD index [])) 31 := by
    unfold written_count
    rw [if_neg h0, hcount]
  have hbyte : ∀ i, (tbl.getD index []).getD i 0 % 2 ^ 16 = (tbl.getD index []).getD i 0 := by
    intro i
    have := getD_lt_of_forall _ 128 (by decide) hascii i
    exact Nat.mod_eq_of_lt (by omega)
  constructor
  · by_cases hi2 : index = 2
    · subst hi2
      have h3 : 3 ≤ chr_count (tbl.getD 2 []) := by
        rcases h2 with h | h
        · exact absurd rfl h
        · rw [hcount]
          omega
      refine ⟨_, string_cb_product_entry tbl unique_id langid desc_str hlen h3, rfl, hw, ?_⟩
      intro i hi hsuf
      have hsuf4 : i + 4 < min (strlen (tbl.getD 2 [])) 31 := by
        rcases hsuf with h | h
        · exact absurd rfl h
        · exact h
      simp only [hcount]
      rw [if_neg (by omega), if_neg (by omega), if_neg (by omega), if_neg (by omega),
        if_neg (by omega), if_pos (by omega)]
      have e : 1 + i - 1 = i := by omega
      rw [e, hbyte]
    · refine ⟨_, string_cb_plain_entry tbl unique_id index langid desc_str h0 hEE hi2 hlen,
        rfl, hw, ?_⟩
      intro i hi _
      simp only [hcount]
      rw [if_neg (by omega), if_pos (by omega)]
      have e : 1 + i - 1 = i := by omega
      rw [e, hbyte]
  · refine ⟨_, string_cb_plain_entry string_desc_arr unique_id 1 langid desc_str
      (by decide) (by decide) (by decide) (by decide), rfl, by decide, ?_⟩
    simp only [chr_count_manufacturer]
    rfl

/-- C13 at a concrete input: the product string (index 2) of the table of the
firmware, 16 characters, from a zeroed buffer. -/
theorem ascii_entry_widened_witness :
    (∃ r, tud_descriptor_string_cb string_desc_arr 0 2 0x0409 (fun _ => 0) = some r ∧
      r.ret = true ∧
      written_count string_desc_arr 2 = min (strlen (string_desc_arr.getD 2 [])) 31 ∧
      ∀ i, i < min (strlen (string_desc_arr.getD 2 [])) 31 →
        ((2 : Nat) ≠ 2 ∨ i + 4 < min (strlen (string_desc_arr.getD 2 [])) 31) →
        r.desc_str (1 + i) = (string_desc_arr.getD 2 []).getD i 0) ∧
    (∃ r, tud_descriptor_string_cb string_desc_arr 0 1 0x0409 (fun _ => 0) = some r ∧
      r.ret = true ∧
      written_count string_desc_arr 1 = 5 ∧
      [r.desc_str 1, r.desc_str 2, r.desc_str 3, r.desc_str 4, r.desc_str 5]
        = ['Z'.toNat, 'U'.toNat, 'O'.toNat, 'Y'.toNat, 'A'.toNat]) :=
  ascii_entry_widened string_desc_arr 0 2 0x0409 (fun _ => 0) (by decide) (by decide)
    (by decide) (by decide) (by decide) (Or.inr (by decide))

/-- C14 as stated fails: from the state with `boot_protocol_keyboard = true`
and `boot_protocol_updated = false`, `tud_mount_cb` leaves
`boot_protocol_updated = true`, not false. -/
theorem mount_does_not_clear_updated :
    (tud_mount_cb (ProtocolState.mk true false)).2 = ProtocolState.mk false true ∧
      ¬ ((tud_mount_cb (ProtocolState.mk true false)).2.boot_protocol_keyboard = false ∧
        (tud_mount_cb (ProtocolState.mk true false)).2.boot_protocol_updated = false) := by
  decide

/-- C14, amended: after `tud_mount_cb`, for every prior state,
`boot_protocol_keyboard` is false, and `boot_protocol_updated` is false exactly
when both flags were false before: the flag is set when the prior state was
boot protocol and is kept otherwise, never cleared. -/
theorem mount_resets_keyboard_only (s : ProtocolState) :
    (tud_mount_cb s).2
        = ProtocolState.mk false (s.boot_protocol_updated || s.boot_protocol_keyboard) ∧
      ((tud_mount_cb s).2.boot_protocol_updated = false ↔
        (s.boot_protocol_keyboard = false ∧ s.boot_protocol_updated = false)) ∧
      (tud_mount_cb s).1 = [ExternCall.reset_resolution_multiplier] := by
  obtain ⟨k, u⟩ := s
  cases k <;> cases u <;> decide

set_option maxRecDepth 100000 in
/-- C15 as stated fails in its general part: for a product string of 259
characters `'X'` (so of length at least 4) the 8-bit `chr_count` is 3, the
suffix loop stores at the words 0 to 3 of the buffer, and the first data code
unit (word 1) is overwritten, although it is none of the positions
`min(259, 31) - 4 .. min(259, 31) - 1`. -/
theorem long_product_overwrite_hits_text :
    4 ≤ strlen (List.replicate 259 88) ∧
      chr_count (List.replicate 259 88) = 3 ∧
      (∃ d2, unique_id_loop 0 (chr_count (List.replicate 259 88)) (fun _ => 7) = some d2 ∧
        d2 1 ≠ 7 ∧ 1 < 1 + (min 259 31 - 4)) ∧
      (∃ r, tud_descriptor_string_cb [[9, 4], [65], List.replicate 259 88] 0 2 0x0409
          (fun _ => 0) = some r ∧
        r.desc_str 1 = '0'.toNat ∧ r.desc_str 1 ≠ (List.replicate 259 88).getD 0 0) := by
  refine ⟨by decide, by decide, ⟨_, unique_id_loop_eq 0 _ (by decide) (by decide) _, ?_, ?_⟩,
    ⟨_, string_cb_product_entry _ _ _ _ (by decide) (by decide), ?_, ?_⟩⟩ <;>
  decide

/-- C15, amended: for every unique id the product-string descriptor of the
firmware (index 2) has count 16 (header word `0x0322`) and its first 12 data
code units are the characters of `"ZUOYA GMK87 "`.  More generally, for any
product string of length `n` with `4 ≤ n < 256` the overwrite touches only the
positions `min(n,31) - 4 .. min(n,31) - 1` of the data code units: the suffix
loop changes no other word of the buffer, the data code units before these
positions are the source characters, and the words behind the string are left
as they were. -/
theorem product_overwrite_frame (tbl : List (List Nat)) (unique_id langid : Nat)
    (desc_str : DescStr) (hlen : 2 < tbl.length) (h4 : 4 ≤ strlen (tbl.getD 2 []))
    (h256 : strlen (tbl.getD 2 []) < 256) :
    (∃ r, tud_descriptor_string_cb string_desc_arr unique_id 2 langid desc_str = some r ∧
      written_count string_desc_arr 2 = 16 ∧
      r.desc_str 0 = 0x0322 ∧
      (List.range 12).map (fun i => r.desc_str (1 + i))
        = "ZUOYA GMK87 ".toList.map Char.toNat) ∧
    (∀ d1 : DescStr, ∃ d2, unique_id_loop unique_id (chr_count (tbl.getD 2 [])) d1 = some d2 ∧
      ∀ j, (j < 1 + (min (strlen (tbl.getD 2 [])) 31 - 4) ∨
          min (strlen (tbl.getD 2 [])) 31 < j) → d2 j = d1 j) ∧
    (∃ r, tud_descriptor_string_cb tbl unique_id 2 langid desc_str = some r ∧
      written_count tbl 2 = min (strlen (tbl.getD 2 [])) 31 ∧
      (∀ i, i + 4 < min (strlen (tbl.getD 2 [])) 31 →
        r.desc_str (1 + i) = (tbl.getD 2 []).getD i 0 % 2 ^ 16) ∧
      (∀ j, min (strlen (tbl.getD 2 [])) 31 < j → r.desc_str j = desc_str j)) := by
  have hcount := chr_count_of_lt _ h256
  have h3 : 3 ≤ chr_count (tbl.getD 2 []) := by
    rw [hcount]
    omega
  refine ⟨?_, ?_, ?_⟩
  · refine ⟨_, string_cb_product_entry string_desc_arr unique_id langid desc_str
      (by decide) (by decide), by decide, ?_, ?_⟩
    · simp only [chr_count_product]
      rfl
    · simp only [chr_count_product]
      rfl
  · intro d1
    refine ⟨_, unique_id_loop_eq unique_id _ h3 (chr_count_le _) d1, ?_⟩
    intro j hj
    simp only [hcount]
    rw [if_neg (by omega), if_neg (by omega), if_neg (by omega), if_neg (by omega)]
  · refine ⟨_, string_cb_product_entry tbl unique_id langid desc_str hlen h3, ?_, ?_, ?_⟩
    · unfold written_count
      rw [if_neg (by decide), hcount]
    · intro i hi
      simp only [hcount]
      rw [if_neg (by omega), if_neg (by omega), if_neg (by omega), if_neg (by omega),
        if_neg (by omega), if_pos (by omega)]
      have e : 1 + i - 1 = i := by omega
      rw [e]
    · intro j hj
      simp only [hcount]
      rw [if_neg (by omega), if_neg (by omega), if_neg (by omega), if_neg (by omega),
        if_neg (by omega), if_neg (by omega)]

/-- C15 at a concrete input: the table of the firmware, unique id `0x12345A`,
from a zeroed buffer. -/
theorem product_overwrite_frame_witness :
    (∃ r, tud_descriptor_string_cb string_desc_arr 0x12345A 2 0x0409 (fun _ => 0) = some r ∧
      written_count string_desc_arr 2 = 16 ∧
      r.desc_str 0 = 0x0322 ∧
      (List.range 12).map (fun i => r.desc_str (1 + i))
        = "ZUOYA GMK87 ".toList.map Char.toNat) ∧
    (∀ d1 : DescStr, ∃ d2,
      unique_id_loop 0x12345A (chr_count (string_desc_arr.getD 2 [])) d1 = some d2 ∧
      ∀ j, (j < 1 + (min (strlen (string_desc_arr.getD 2 [])) 31 - 4) ∨
          min (strlen (string_desc_arr.getD 2 [])) 31 < j) → d2 j = d1 j) ∧
    (∃ r, tud_descriptor_string_cb string_desc_arr 0x12345A 2 0x0409 (fun _ => 0) = some r ∧
      written_count string_desc_arr 2 = min (strlen (string_desc_arr.getD 2 [])) 31 ∧
      (∀ i, i + 4 < min (strlen (string_desc_arr.getD 2 [])) 31 →
        r.desc_str (1 + i) = (string_desc_arr.getD 2 []).getD i 0 % 2 ^ 16) ∧
      (∀ j, min (strlen (string_desc_arr.getD 2 [])) 31 < j → r.desc_str j = (fun _ => 0) j)) :=
  product_overwrite_frame string_desc_arr 0x12345A 0x0409 (fun _ => 0) (by decide) (by decide)
    (by decide)

/-- C16: for every table, index, language id and prior buffer, two unique ids
that agree modulo `2^20` give identical results of `tud_descriptor_string_cb`
(same availability, same header, same code units), and for an index other
than 2 the result is the same for any two unique ids. -/
theorem string_cb_reads_low_20_bits (tbl : List (List Nat)) (u1 u2 u3 index index2 langid : Nat)
    (desc_str : DescStr) (h : u1 % 2 ^ 20 = u2 % 2 ^ 20) (h2 : index2 ≠ 2) :
    tud_descriptor_string_cb tbl u1 index langid desc_str
        = tud_descriptor_string_cb tbl u2 index langid desc_str ∧
      tud_descriptor_string_cb tbl u1 index2 langid desc_str
        = tud_descriptor_string_cb tbl u3 index2 langid desc_str := by
  constructor
  · unfold tud_descriptor_string_cb
    simp only [unique_id_loop_low_bits u1 u2 h]
  · unfold tud_descriptor_string_cb
    simp only [if_neg h2]

/-- C16 at a concrete input: the table of the firmware, the unique ids
`0x12345A` and `0x12345A + 2^20` at index 2, and the unique ids `0x12345A`
and 7 at index 1. -/
theorem string_cb_reads_low_20_bits_witness :
    0x12345A % 2 ^ 20 = (0x12345A + 2 ^ 20) % 2 ^ 20 ∧ (1 : Nat) ≠ 2 ∧
      tud_descriptor_string_cb string_desc_arr 0x12345A 2 0x0409 (fun _ => 0)
        = tud_descriptor_string_cb string_desc_arr (0x12345A + 2 ^ 20) 2 0x0409 (fun _ => 0) ∧
      tud_descriptor_string_cb string_desc_arr 0x12345A 1 0x0409 (fun _ => 0)
        = tud_descriptor_string_cb string_desc_arr 7 1 0x0409 (fun _ => 0) :=
  ⟨by decide, by decide,
    string_cb_reads_low_20_bits string_desc_arr 0x12345A (0x12345A + 2 ^ 20) 7 2 1 0x0409
      (fun _ => 0) (by decide) (by decide)⟩

/-- C17: in every one of the six configuration descriptors the endpoints of
interface 0 are the IN endpoint `0x81`, preceded by the OUT endpoint `0x02` in
the configurations whose interface 0 is bidirectional (2 and 4, built with
`TUD_HID_INOUT_DESCRIPTOR`); the only endpoint of interface 1 is the IN
endpoint `0x83`; and the configurations whose interface 0 is not bidirectional
hold no OUT endpoint at all. -/
theorem config_endpoint_addresses (p : DescriptorParams) :
    (configuration_descriptors p).map
        (fun c => (endpoint_addresses c 0).filter (fun a => !is_out_endpoint a))
        = List.replicate 6 [0x81] ∧
      (configuration_descriptors p).map (fun c => endpoint_addresses c 1)
        = List.replicate 6 [0x83] ∧
      (configuration_descriptors p).map
        (fun c => (is_bidirectional c, (endpoint_addresses c 0).filter is_out_endpoint,
          (all_endpoint_addresses c).filter is_out_endpoint))
        = [(false, [], []), (false, [], []), (true, [0x02], [0x02]),
            (false, [], []), (true, [0x02], [0x02]), (false, [], [])] ∧
      (configuration_descriptors p).map (fun c => endpoint_addresses c 0)
        = [[0x81], [0x81], [0x02, 0x81], [0x81], [0x02, 0x81], [0x81]] := by
  refine ⟨?_, ?_, ?_, ?_⟩ <;>
  simp [config_blocks, configuration_descriptors, configuration_descriptor0,
      configuration_descriptor1, configuration_descriptor2, configuration_descriptor3,
      configuration_descriptor4, configuration_descriptor5, TUD_CONFIG_DESCRIPTOR,
      TUD_HID_DESCRIPTOR, TUD_HID_INOUT_DESCRIPTOR, U16_TO_U8S_LE, descriptor_blocks,
      TUD_CONFIG_DESC_LEN, TUD_HID_DESC_LEN, TUD_HID_INOUT_DESC_LEN,
      TUSB_DESC_CONFIGURATION, TUSB_DESC_INTERFACE, TUSB_DESC_ENDPOINT, TUSB_CLASS_HID,
      HID_SUBCLASS_BOOT, HID_ITF_PROTOCOL_NONE, HID_ITF_PROTOCOL_KEYBOARD, HID_DESC_TYPE_HID,
      HID_DESC_TYPE_REPORT, TUSB_XFER_INTERRUPT, endpoint_addresses, interface_section,
      is_bidirectional, bNumEndpoints, all_endpoint_addresses, is_out_endpoint] <;>
  decide

set_option maxRecDepth 100000 in
/-- C18 as stated fails for the arbitrary product string: a product string of
256 characters `'X'` has length at least 4, but the 8-bit `chr_count` is 0,
the first suffix store goes to position `1 + 0 - 4 + 0 = -3`, and the request
for index 2 stores outside the buffer. -/
theorem product_of_256_stores_out_of_bounds :
    4 ≤ strlen (List.replicate 256 88) ∧
      chr_count (List.replicate 256 88) = 0 ∧
      1 + (chr_count (List.replicate 256 88) : Int) - 4 + 0 = -3 ∧
      (tud_descriptor_string_cb [[9, 4], [65], List.replicate 256 88] 0 2 0x0409
        (fun _ => 0)).isSome = false := by
  decide

/-- C18, amended: for every index, language id, unique id and prior buffer,
no store of `tud_descriptor_string_cb` on the table of the firmware leaves the
32 words of `_desc_str`; for a table with an arbitrary product string the same
holds when the product string has a length `n` with `4 ≤ n < 256` (the suffix
store positions `1 + count - 4 + i` are then in [1, 31]); without the
precondition the position can be negative, as for a product string of 2
characters, where the first suffix store goes to position -1. -/
theorem string_cb_stores_in_bounds (tbl : List (List Nat)) (unique_id index langid : Nat)
    (desc_str : DescStr) (h4 : 4 ≤ strlen (tbl.getD 2 []))
    (h256 : strlen (tbl.getD 2 []) < 256) :
    (tud_descriptor_string_cb string_desc_arr unique_id index langid desc_str).isSome = true ∧
      (tud_descriptor_string_cb tbl unique_id index langid desc_str).isSome = true ∧
      (1 : Int) ≤ 1 + (chr_count (tbl.getD 2 []) : Int) - 4 + 0 ∧
      1 + (chr_count (tbl.getD 2 []) : Int) - 4 + 3 ≤ 31 ∧
      1 + (chr_count [65, 66] : Int) - 4 + 0 = -1 ∧
      (tud_descriptor_string_cb [[9, 4], [65], [65, 66]] unique_id 2 langid desc_str).isSome
        = false := by
  have hcount := chr_count_of_lt _ h256
  have hle := chr_count_le (tbl.getD 2 [])
  have h3 : 3 ≤ chr_count (tbl.getD 2 []) := by
    rw [hcount]
    omega
  have hc4 : 4 ≤ chr_count (tbl.getD 2 []) := by
    rw [hcount]
    omega
  refine ⟨string_cb_isSome string_desc_arr unique_id index langid desc_str (by decide),
    string_cb_isSome tbl unique_id index langid desc_str h3, by omega, by omega, by decide, ?_⟩
  have hc : chr_count ([[9, 4], [65], [65, 66]].getD 2 []) = 2 := by decide
  have hneg : ¬ ((0 : Int) ≤ 1 + ((2 : Nat) : Int) - 4 + ((0 : Nat) : Int) ∧
      1 + ((2 : Nat) : Int) - 4 + ((0 : Nat) : Int) < 32) := by decide
  have hr : List.range 4 = [0, 1, 2, 3] := by decide
  unfold tud_descriptor_string_cb
  simp only [hc, widen_loop_eq _ 2 (by decide), Option.some_bind]
  simp [unique_id_loop, hr, store, hneg]

/-- C18 at a concrete input: the table of the firmware (product string of 16
characters), index 2, unique id `0x12345A`, from a zeroed buffer. -/
theorem string_cb_stores_in_bounds_witness :
    (tud_descriptor_string_cb string_desc_arr 0x12345A 2 0x0409 (fun _ => 0)).isSome = true ∧
      (tud_descriptor_string_cb string_desc_arr 0x12345A 2 0x0409 (fun _ => 0)).isSome = true ∧
      (1 : Int) ≤ 1 + (chr_count (string_desc_arr.getD 2 []) : Int) - 4 + 0 ∧
      1 + (chr_count (string_desc_arr.getD 2 []) : Int) - 4 + 3 ≤ 31 ∧
      1 + (chr_count [65, 66] : Int) - 4 + 0 = -1 ∧
      (tud_descriptor_string_cb [[9, 4], [65], [65, 66]] 0x12345A 2 0x0409 (fun _ => 0)).isSome
        = false :=
  string_cb_stores_in_bounds string_desc_arr 0x12345A 2 0x0409 (fun _ => 0) (by decide)
    (by decide)

/-- C19: for every sequence of callback invocations (`tud_hid_set_protocol_cb`,
`tud_mount_cb`, `tud_descriptor_string_cb`, `tud_hid_get_report_cb`,
`tud_hid_set_report_cb`, the external handlers not writing the flags),
`boot_protocol_updated` is true after the sequence unless it was false before
it (no callback clears it), and `boot_protocol_keyboard` is false after the
sequence unless it was true before it or the sequence holds a
`tud_hid_set_protocol_cb` call with `protocol == HID_PROTOCOL_BOOT`. -/
theorem updated_flag_is_sticky (unique_id : Nat) (ops : List CoreOp) (s : CoreState) :
    ((core_run unique_id s ops).flags.boot_protocol_updated = true ∨
        s.flags.boot_protocol_updated = false) ∧
      ((core_run unique_id s ops).flags.boot_protocol_keyboard = false ∨
        s.flags.boot_protocol_keyboard = true ∨
        ∃ instance_, CoreOp.set_protocol instance_ HID_PROTOCOL_BOOT ∈ ops) := by
  have key : ∀ (l : List CoreOp) (t : CoreState),
      (t.flags.boot_protocol_updated = true →
          (core_run unique_id t l).flags.boot_protocol_updated = true) ∧
        ((core_run unique_id t l).flags.boot_protocol_keyboard = true →
          t.flags.boot_protocol_keyboard = true ∨
            ∃ instance_, CoreOp.set_protocol instance_ HID_PROTOCOL_BOOT ∈ l) := by
    intro l
    induction l with
    | nil => exact fun t => ⟨fun hu => hu, fun hk => Or.inl hk⟩
    | cons op rest ih =>
      intro t
      have hstep := core_step_flags unique_id t op
      have hrest := ih (core_step unique_id t op)
      have hrun : core_run unique_id t (op :: rest)
          = core_run unique_id (core_step unique_id t op) rest := rfl
      rw [hrun]
      refine ⟨fun hu => hrest.1 (hstep.1 hu), fun hk => ?_⟩
      rcases hrest.2 hk with hk1 | ⟨i, hi⟩
      · rcases hstep.2 hk1 with hk0 | ⟨i, hi⟩
        · exact Or.inl hk0
        · exact Or.inr ⟨i, by rw [hi]; exact List.mem_cons_self _ _⟩
      · exact Or.inr ⟨i, List.mem_cons_of_mem _ hi⟩
  constructor
  · cases hu : s.flags.boot_protocol_updated
    · exact Or.inr rfl
    · exact Or.inl ((key ops s).1 hu)
  · cases hk : (core_run unique_id s ops).flags.boot_protocol_keyboard
    · exact Or.inl rfl
    · exact Or.inr ((key ops s).2 hk)

/-- C20: for every interface number other than 0, `tud_hid_get_report_cb` and
`tud_hid_set_report_cb` call the interface-1 handler, with the arguments they
received; the result of `tud_hid_get_report_cb` is the same for any two report
types; and the state after `tud_hid_set_protocol_cb` is the same for any two
instance arguments. -/
theorem routing_of_unlisted_arguments (get_report0 get_report1 : Nat → List Nat → Nat → Nat)
    (itf report_id report_type report_type2 : Nat) (buffer : List Nat) (len : Nat)
    (instance_ instance2 protocol : Nat) (s : ProtocolState) (h : itf ≠ 0) :
    tud_hid_get_report_cb get_report0 get_report1 itf report_id report_type buffer len
        = ([ExternCall.handle_get_report1 report_id buffer len],
            get_report1 report_id buffer len) ∧
      tud_hid_set_report_cb itf report_id report_type buffer len
        = [ExternCall.handle_set_report1 report_id buffer len] ∧
      tud_hid_get_report_cb get_report0 get_report1 0 report_id report_type buffer len
        = tud_hid_get_report_cb get_report0 get_report1 0 report_id report_type2 buffer len ∧
      tud_hid_get_report_cb get_report0 get_report1 itf report_id report_type buffer len
        = tud_hid_get_report_cb get_report0 get_report1 itf report_id report_type2 buffer len ∧
      tud_hid_set_protocol_cb instance_ protocol s
        = tud_hid_set_protocol_cb instance2 protocol s ∧
      tud_hid_set_protocol_cb 1 protocol s = tud_hid_set_protocol_cb 0 protocol s := by
  refine ⟨?_, ?_, rfl, rfl, rfl, rfl⟩
  · unfold tud_hid_get_report_cb
    rw [if_neg h]
  · unfold tud_hid_set_report_cb
    rw [if_neg h]

/-- C20 at a concrete input: interface number 2, report id 0, report types 0
and 3, a two-byte buffer, and a set-protocol to the boot protocol addressed to
the instances 0 and 1. -/
theorem routing_of_unlisted_arguments_witness :
    (2 : Nat) ≠ 0 ∧
      tud_hid_get_report_cb (fun _ _ _ => 10) (fun _ _ _ => 11) 2 0 0 [5, 6] 2
        = ([ExternCall.handle_get_report1 0 [5, 6] 2], 11) ∧
      tud_hid_set_report_cb 2 0 0 [5, 6] 2 = [ExternCall.handle_set_report1 0 [5, 6] 2] ∧
      tud_hid_get_report_cb (fun _ _ _ => 10) (fun _ _ _ => 11) 0 0 0 [5, 6] 2
        = tud_hid_get_report_cb (fun _ _ _ => 10) (fun _ _ _ => 11) 0 0 3 [5, 6] 2 ∧
      tud_hid_get_report_cb (fun _ _ _ => 10) (fun _ _ _ => 11) 2 0 0 [5, 6] 2
        = tud_hid_get_report_cb (fun _ _ _ => 10) (fun _ _ _ => 11) 2 0 3 [5, 6] 2 ∧
      tud_hid_set_protocol_cb 0 HID_PROTOCOL_BOOT (ProtocolState.mk false false)
        = tud_hid_set_protocol_cb 1 HID_PROTOCOL_BOOT (ProtocolState.mk false false) ∧
      tud_hid_set_protocol_cb 1 HID_PROTOCOL_BOOT (ProtocolState.mk false false)
        = tud_hid_set_protocol_cb 0 HID_PROTOCOL_BOOT (ProtocolState.mk false false) :=
  ⟨by decide,
    routing_of_unlisted_arguments (fun _ _ _ => 10) (fun _ _ _ => 11) 2 0 0 3 [5, 6] 2 0 1
      HID_PROTOCOL_BOOT (ProtocolState.mk false false) (by decide)⟩

end HidRemapper
